import Mathlib

/-! Verification development for a canary-deployment loan-underwriting service.

The embedding below follows the repository sources:
* `app/underwriting.py` — detailed v1-style underwriting (`Underwriting` namespace);
* `app/model_v2.py`     — scorecard v2 evaluator (`ModelV2` namespace);
* `app/main.py`         — decision router (`Main` namespace).

Machine floats are modelled by exact rationals; the logistic risk score of the
v2 evaluator uses `Real.exp`, so the probability layer lives in `ℝ`.
Python `round(x, n)` is round-half-to-even, modelled by `roundHalfEven`.
-/

set_option maxRecDepth 4000

/-- Round-half-to-even (banker's rounding) to an integer, as used by Python
`round`.  Defined for any linear ordered field with a floor. -/
def roundHalfEven {α : Type} [LinearOrderedField α] [FloorRing α] (x : α) : ℤ :=
  if x - (⌊x⌋ : α) < 1/2 then ⌊x⌋
  else if 1/2 < x - (⌊x⌋ : α) then ⌊x⌋ + 1
  else if ⌊x⌋ % 2 = 0 then ⌊x⌋ else ⌊x⌋ + 1

/-- Python `round(x, digits)`: round-half-to-even at the given number of
decimal digits. -/
def round_to {α : Type} [LinearOrderedField α] [FloorRing α] (x : α) (digits : ℕ) : α :=
  ((roundHalfEven (x * 10 ^ digits) : ℤ) : α) / 10 ^ digits

/-- The `_round_money` from `underwriting.py`: round to 2 decimals. -/
def _round_money (x : ℚ) : ℚ := round_to x 2

/-- The `_monthly_payment` from `underwriting.py` / `model_v2.py`: fixed-rate
amortization payment for a principal, annual rate `apr` and term in months. -/
def _monthly_payment (principal apr : ℚ) (months : ℤ) : ℚ :=
  let r := apr / 12
  if months ≤ 0 then 0
  else if r = 0 then principal / (months : ℚ)
  else principal * (r * (1 + r) ^ months.toNat) / ((1 + r) ^ months.toNat - 1)

/-- The `_principal_from_payment` from `model_v2.py`: inverse amortization,
principal affordable at a given monthly payment. -/
def _principal_from_payment (payment apr : ℚ) (months : ℤ) : ℚ :=
  let r := apr / 12
  if months ≤ 0 ∨ payment ≤ 0 then 0
  else if r = 0 then payment * (months : ℚ)
  else
    let denom := r * (1 + r) ^ months.toNat
    if denom = 0 then 0
    else payment * ((1 + r) ^ months.toNat - 1) / denom

/-- The application record read by both evaluators (form fields of `main.py`,
plus the optional `housing_payment` read by `underwriting.py`). -/
structure ApplicationRecord where
  annual_income : ℚ
  credit_score : ℤ
  monthly_debt_payments : ℚ
  loan_amount : ℚ
  loan_term_months : ℤ
  employment_years : ℚ
  age : ℤ
  housing_payment : ℚ := 0
deriving DecidableEq, Repr

namespace Main

/-- The `RoutingResult`: the value returned by `_decide` in `main.py`; `chosen`
and `shadow` each hold one evaluator's output. -/
structure RoutingResult (α β : Type) where
  model : String
  chosen : α ⊕ β
  shadow : α ⊕ β
deriving DecidableEq

/-- The `_decide` from `main.py`: run both evaluators, then let the feature flag
pick the champion; the other result is kept as shadow. -/
def _decide {α β : Type} (v1_out : α) (v2_out : β) (use_v2 : Bool) :
    RoutingResult α β :=
  let chosen : α ⊕ β := if use_v2 then Sum.inr v2_out else Sum.inl v1_out
  let model : String := if use_v2 then "v2" else "v1"
  { model := model
    chosen := chosen
    shadow := if model = "v2" then Sum.inl v1_out else Sum.inr v2_out }

end Main

/-- The per-dollar amortization payment factor `r (1+r)^t / ((1+r)^t - 1)`:
`_monthly_payment` is linear in the principal with this slope. -/
def payment_rate (r : ℚ) (t : ℕ) : ℚ := r * (1 + r) ^ t / ((1 + r) ^ t - 1)

/-- Turn an ordered list of (check-fired, message) pairs into the ordered
list of messages of the fired checks. -/
def flagsToReasons (l : List (Bool × String)) : List String :=
  (l.filter (fun p => p.1)).map (fun p => p.2)

/-- Rank of a letter risk grade, best ("A") = 0 to worst ("E") = 4. -/
def gradeRank (g : String) : ℕ :=
  if g = "A" then 0
  else if g = "B" then 1
  else if g = "C" then 2
  else if g = "D" then 3
  else 4

namespace Underwriting

/-- The `Offer` dataclass from `underwriting.py`. -/
structure Offer where
  approved_amount : ℚ
  term_months : ℤ
  apr : ℚ
  origination_fee : ℚ
  monthly_payment : ℚ
deriving DecidableEq, Repr

/-- The decision record assembled by `underwrite` (the fields the claims
speak about; the deterministic id, timestamp, adverse-action list and the
pricing echo are presentation data derived from these fields). -/
structure V1Result where
  model_version : String
  decision : String
  risk_grade : String
  dti : ℚ
  reasons : List String
  offer : Option Offer
deriving DecidableEq, Repr

/-- The `_apr_from_credit_score_v1` from `underwriting.py`. -/
def _apr_from_credit_score_v1 (credit : ℤ) : ℚ :=
  if credit ≥ 760 then 60/1000
  else if credit ≥ 700 then 80/1000
  else if credit ≥ 660 then 110/1000
  else if credit ≥ 620 then 150/1000
  else 220/1000

/-- The `_apr_from_credit_score_v2` from `underwriting.py`. -/
def _apr_from_credit_score_v2 (credit : ℤ) : ℚ :=
  if credit ≥ 760 then 55/1000
  else if credit ≥ 700 then 75/1000
  else if credit ≥ 660 then 105/1000
  else if credit ≥ 620 then 140/1000
  else 210/1000

/-- The `_risk_grade` from `underwriting.py`. -/
def _risk_grade (credit : ℤ) (dti : ℚ) : String :=
  if credit ≥ 760 ∧ dti ≤ 35/100 then "A"
  else if credit ≥ 700 ∧ dti ≤ 40/100 then "B"
  else if credit ≥ 660 ∧ dti ≤ 43/100 then "C"
  else if credit ≥ 620 ∧ dti ≤ 45/100 then "D"
  else "E"

/-- The `_max_loan_amount` from `underwriting.py`. -/
def _max_loan_amount (income : ℚ) (credit : ℤ) : ℚ :=
  let base := max 2000 (min 50000 (income * (8/10)))
  if credit ≥ 760 then base
  else if credit ≥ 700 then base * (90/100)
  else if credit ≥ 660 then base * (75/100)
  else if credit ≥ 620 then base * (60/100)
  else base * (40/100)

/-- The `_manual_review_needed` from `underwriting.py`. -/
def _manual_review_needed (d : ApplicationRecord) : Bool :=
  decide ((d.loan_amount ≥ 35000 ∧ d.age < 23) ∨
    (d.credit_score < 600 ∧ d.loan_amount ≥ 15000))

/-- The APR table chosen by `underwrite` from its `version` argument. -/
def apr_of (d : ApplicationRecord) (version : String) : ℚ :=
  if version = "v2" then _apr_from_credit_score_v2 d.credit_score
  else _apr_from_credit_score_v1 d.credit_score

/-- The `est_payment` local of `underwrite`. -/
def est_payment (d : ApplicationRecord) (version : String) : ℚ :=
  _monthly_payment d.loan_amount (apr_of d version) d.loan_term_months

/-- The `monthly_income` local of `underwrite`. -/
def monthly_income (d : ApplicationRecord) : ℚ := d.annual_income / 12

/-- The `total_monthly_obligations` local of `underwrite` (includes housing). -/
def total_monthly_obligations (d : ApplicationRecord) (version : String) : ℚ :=
  d.monthly_debt_payments + d.housing_payment + est_payment d version

/-- The `dti` local of `underwrite`. -/
def dti_of (d : ApplicationRecord) (version : String) : ℚ :=
  if 0 < monthly_income d then
    total_monthly_obligations d version / monthly_income d
  else 1

/-- The `max_amt` local of `underwrite`. -/
def max_amt_of (d : ApplicationRecord) : ℚ :=
  _max_loan_amount d.annual_income d.credit_score

/-- The `reasons` list accumulated by `underwrite`, in source order: five
basic eligibility checks, three policy thresholds, the amount cap and the
DTI check; every check runs, no early exit. -/
def reasons_of (d : ApplicationRecord) (version : String) : List String :=
  (if d.age < 18 then ["Applicant must be 18+."] else [])
  ++ (if d.employment_years < 0 then
        ["Employment years must be non-negative."] else [])
  ++ (if d.annual_income ≤ 0 then ["Annual income must be positive."] else [])
  ++ (if d.loan_amount ≤ 0 ∨ d.loan_term_months ≤ 0 then
        ["Loan amount/term must be positive."] else [])
  ++ (if d.credit_score < 300 ∨ d.credit_score > 850 then
        ["Credit score must be between 300 and 850."] else [])
  ++ (if d.employment_years < 1 then
        ["Employment length must be >= 1 year."] else [])
  ++ (if d.credit_score < 580 then ["Credit score below minimum (580)."] else [])
  ++ (if d.annual_income < 25000 then
        ["Annual income below minimum ($25,000)."] else [])
  ++ (if d.loan_amount > max_amt_of d then
        ["Loan amount exceeds max allowed ($"
          ++ toString (_round_money (max_amt_of d)) ++ ")."] else [])
  ++ (if dti_of d version > 45/100 then
        ["DTI too high (" ++ toString (round_to (dti_of d version) 2)
          ++ " > 0.45)."] else [])

/-- The same checks as `reasons_of`, given as (condition, message) pairs
in the order they are written in `underwrite`. -/
def checks_v1 (d : ApplicationRecord) (version : String) :
    List (Bool × String) :=
  [(decide (d.age < 18), "Applicant must be 18+."),
   (decide (d.employment_years < 0), "Employment years must be non-negative."),
   (decide (d.annual_income ≤ 0), "Annual income must be positive."),
   (decide (d.loan_amount ≤ 0 ∨ d.loan_term_months ≤ 0),
     "Loan amount/term must be positive."),
   (decide (d.credit_score < 300 ∨ d.credit_score > 850),
     "Credit score must be between 300 and 850."),
   (decide (d.employment_years < 1), "Employment length must be >= 1 year."),
   (decide (d.credit_score < 580), "Credit score below minimum (580)."),
   (decide (d.annual_income < 25000), "Annual income below minimum ($25,000)."),
   (decide (d.loan_amount > max_amt_of d),
     "Loan amount exceeds max allowed ($"
       ++ toString (_round_money (max_amt_of d)) ++ ")."),
   (decide (dti_of d version > 45/100),
     "DTI too high (" ++ toString (round_to (dti_of d version) 2)
       ++ " > 0.45).")]

/-- The `pti` local of `underwrite` (reached only when no reasons accumulated,
so monthly income is positive there). -/
def pti_of (d : ApplicationRecord) (version : String) : ℚ :=
  est_payment d version / monthly_income d

/-- The `target_payment` local of `underwrite`: 13% of monthly income. -/
def target_payment (d : ApplicationRecord) : ℚ :=
  monthly_income d * (13/100)

/-- The fixed-iteration bisection of `underwrite`: keeps the invariant that
`lo` is the candidate principal, halving the bracket each step. -/
def counterSearch (target apr : ℚ) (term : ℤ) : ℕ → ℚ × ℚ → ℚ × ℚ
  | 0, s => s
  | n + 1, (lo, hi) =>
    let mid := (lo + hi) / 2
    let p := _monthly_payment mid apr term
    if p > target then counterSearch target apr term n (lo, mid)
    else counterSearch target apr term n (mid, hi)

/-- The `approved_amount` local of `underwrite`: the requested amount, or the
bisection result (30 iterations over [1000, loan_amount]) when PTI > 15%. -/
def approved_amount_of (d : ApplicationRecord) (version : String) : ℚ :=
  if pti_of d version > 15/100 then
    _round_money (counterSearch (target_payment d) (apr_of d version)
      d.loan_term_months 30 (1000, d.loan_amount)).1
  else d.loan_amount

/-- The `orig_fee` local of `underwrite`: 2% of the requested amount clamped to
[99, 499], rounded to money. -/
def orig_fee_of (d : ApplicationRecord) : ℚ :=
  _round_money (max 99 (min (d.loan_amount * (2/100)) 499))

/-- The `Offer` assembled by `underwrite`; the final payment is recomputed
from the approved amount. -/
def offer_of (d : ApplicationRecord) (version : String) : Offer :=
  { approved_amount := approved_amount_of d version
    term_months := d.loan_term_months
    apr := apr_of d version
    origination_fee := orig_fee_of d
    monthly_payment := _round_money (_monthly_payment
      (approved_amount_of d version) (apr_of d version) d.loan_term_months) }

/-- The `underwrite` from `underwriting.py`: REFER on the manual-review trigger
when no reasons accumulated, REJECTED when reasons exist, else an offer at
the requested or bisected amount. -/
def underwrite (d : ApplicationRecord) (version : String) : V1Result :=
  if reasons_of d version = [] ∧ _manual_review_needed d = true then
    { model_version := version
      decision := "REFER"
      risk_grade := _risk_grade d.credit_score (dti_of d version)
      dti := round_to (dti_of d version) 3
      reasons := ["Application requires manual review."]
      offer := none }
  else if reasons_of d version ≠ [] then
    { model_version := version
      decision := "REJECTED"
      risk_grade := _risk_grade d.credit_score (dti_of d version)
      dti := round_to (dti_of d version) 3
      reasons := reasons_of d version
      offer := none }
  else
    { model_version := version
      decision := if approved_amount_of d version = d.loan_amount then
        "APPROVED" else "COUNTEROFFER"
      risk_grade := _risk_grade d.credit_score (dti_of d version)
      dti := round_to (dti_of d version) 3
      reasons := []
      offer := some (offer_of d version) }

end Underwriting

namespace ModelV2

def DTI_CAP : ℚ := 45/100

def PTI_CAP : ℚ := 18/100

def MIN_LOAN : ℚ := 1000

def MAX_LOAN : ℚ := 100000

def MIN_TERM : ℤ := 12

def MAX_TERM : ℤ := 84

/-- The dict returned by `predict` in `model_v2.py`; the two keys absent on
some paths are `Option`s. -/
structure V2Result where
  decision : String
  risk_grade : String
  approval_probability : ℝ
  reasons : List String
  apr : ℚ
  estimated_monthly_payment : ℚ
  dti : ℚ
  pti : ℚ
  max_affordable_loan : Option ℚ
  counteroffer_loan_amount : Option ℚ

/-- The `_apr_from_credit_score` from `model_v2.py` (seven bands). -/
def _apr_from_credit_score (credit_score : ℤ) : ℚ :=
  if credit_score ≥ 780 then 55/1000
  else if credit_score ≥ 740 then 65/1000
  else if credit_score ≥ 700 then 79/1000
  else if credit_score ≥ 660 then 105/1000
  else if credit_score ≥ 620 then 139/1000
  else if credit_score ≥ 580 then 179/1000
  else 219/1000

/-- The `_sigmoid` from `model_v2.py`. -/
noncomputable def _sigmoid (x : ℝ) : ℝ := 1 / (1 + Real.exp (-x))

/-- The `_risk_grade` from `model_v2.py` (probability bands). -/
noncomputable def _risk_grade (p : ℝ) : String :=
  if p ≥ 85/100 then "A"
  else if p ≥ 75/100 then "B"
  else if p ≥ 65/100 then "C"
  else if p ≥ 55/100 then "D"
  else "E"

/-- The hard-stop `reasons` list of `predict`, block (A); every check runs,
no early exit. -/
def hard_reasons (d : ApplicationRecord) : List String :=
  (if d.age < 18 then ["Applicant must be 18+."] else [])
  ++ (if d.annual_income ≤ 0 then ["Income must be greater than $0."] else [])
  ++ (if d.credit_score < 560 then ["Credit score below minimum (560)."] else [])
  ++ (if d.loan_term_months < MIN_TERM ∨ d.loan_term_months > MAX_TERM then
        ["Term must be 12–84 months."] else [])
  ++ (if d.loan_amount < MIN_LOAN ∨ d.loan_amount > MAX_LOAN then
        ["Loan amount must be $1,000–$100,000."] else [])

/-- The same hard stops as `hard_reasons`, given as (condition, message)
pairs in the order they are written in `predict`. -/
def checks_v2 (d : ApplicationRecord) : List (Bool × String) :=
  [(decide (d.age < 18), "Applicant must be 18+."),
   (decide (d.annual_income ≤ 0), "Income must be greater than $0."),
   (decide (d.credit_score < 560), "Credit score below minimum (560)."),
   (decide (d.loan_term_months < MIN_TERM ∨ d.loan_term_months > MAX_TERM),
     "Term must be 12–84 months."),
   (decide (d.loan_amount < MIN_LOAN ∨ d.loan_amount > MAX_LOAN),
     "Loan amount must be $1,000–$100,000.")]

/-- The `apr` local of `predict`. -/
def apr_of (d : ApplicationRecord) : ℚ := _apr_from_credit_score d.credit_score

/-- The `est_payment` local of `predict`. -/
def est_payment (d : ApplicationRecord) : ℚ :=
  _monthly_payment d.loan_amount (apr_of d) d.loan_term_months

/-- The `monthly_income` local of `predict` (0 when income nonpositive). -/
def monthly_income (d : ApplicationRecord) : ℚ :=
  if d.annual_income > 0 then d.annual_income / 12 else 0

/-- The `dti` local of `predict`: debt plus estimated payment over monthly
income; housing payment is not read. -/
def dti_of (d : ApplicationRecord) : ℚ :=
  if monthly_income d > 0 then
    (d.monthly_debt_payments + est_payment d) / monthly_income d
  else 1

/-- The `pti` local of `predict`. -/
def pti_of (d : ApplicationRecord) : ℚ :=
  if monthly_income d > 0 then est_payment d / monthly_income d else 1

/-- The `max_affordable_payment` local of `predict`. -/
def max_affordable_payment (d : ApplicationRecord) : ℚ :=
  max 0 (min (monthly_income d * PTI_CAP)
    (monthly_income d * DTI_CAP - d.monthly_debt_payments))

/-- The `max_affordable_loan` local of `predict`. -/
def max_affordable_loan (d : ApplicationRecord) : ℚ :=
  _principal_from_payment (max_affordable_payment d) (apr_of d)
    d.loan_term_months

/-- The scorecard linear term `z` of `predict`, with the documented fixed
coefficients. -/
def z_of (d : ApplicationRecord) : ℚ :=
  -19/10
  + 7/1000 * ((d.credit_score : ℚ) - 650)
  + 12/1000000 * (d.annual_income - 50000)
  + 22/100 * (d.employment_years - 2)
  - 6 * (dti_of d - 35/100)
  - 28/10 * (pti_of d - 16/100)
  - 1/2 * (if d.age < 21 then 1 else 0)
  - 18/1000000 * d.loan_amount

/-- The `approval_prob` local of `predict`. -/
noncomputable def approval_prob (d : ApplicationRecord) : ℝ :=
  _sigmoid (z_of d)

/-- The soft (non-blocking) reasons appended by `predict` after scoring. -/
def soft_reasons (d : ApplicationRecord) : List String :=
  (if dti_of d > DTI_CAP then ["DTI exceeds affordability cap."] else [])
  ++ (if pti_of d > PTI_CAP then
        ["Payment-to-income exceeds affordability cap."] else [])
  ++ (if d.employment_years < 1/2 then ["Limited employment history."] else [])
  ++ (if d.credit_score < 620 then
        ["Subprime credit band (higher risk)."] else [])

/-- The `counteroffer` local of `predict`: set only when the affordability
ceiling is positive and the requested amount exceeds it by more than 2%. -/
def counteroffer (d : ApplicationRecord) : Option ℚ :=
  if max_affordable_loan d > 0 ∧
      d.loan_amount > max_affordable_loan d * (102/100) then
    some (max_affordable_loan d)
  else none

/-- The final decision bands of `predict`; a pending counteroffer overrides
the probability bands. -/
noncomputable def decision_of (d : ApplicationRecord) : String :=
  if (counteroffer d).isSome then "MANUAL_REVIEW"
  else if approval_prob d ≥ 75/100 ∧ dti_of d ≤ DTI_CAP ∧ pti_of d ≤ PTI_CAP
    then "APPROVED"
  else if approval_prob d ≥ 60/100 then "MANUAL_REVIEW"
  else "REJECTED"

/-- The `predict` from `model_v2.py`. -/
noncomputable def predict (d : ApplicationRecord) : V2Result :=
  if hard_reasons d ≠ [] then
    { decision := "REJECTED"
      risk_grade := "E"
      approval_probability := 0
      reasons := hard_reasons d
      apr := round_to (apr_of d * 100) 2
      estimated_monthly_payment := round_to (est_payment d) 2
      dti := round_to (dti_of d) 3
      pti := round_to (pti_of d) 3
      max_affordable_loan := none
      counteroffer_loan_amount := none }
  else
    { decision := decision_of d
      risk_grade := _risk_grade (approval_prob d)
      approval_probability := round_to (approval_prob d) 3
      reasons := soft_reasons d ++ (if (counteroffer d).isSome then
        ["Requested amount exceeds max affordable loan."] else [])
      apr := round_to (apr_of d * 100) 2
      estimated_monthly_payment := round_to (est_payment d) 2
      dti := round_to (dti_of d) 3
      pti := round_to (pti_of d) 3
      max_affordable_loan := some (round_to (max_affordable_loan d) 0)
      counteroffer_loan_amount := (counteroffer d).map
        (fun c => round_to c 0) }

end ModelV2

/-! Concrete application records used to evaluate the evaluators at
specific inputs (counterexamples and witnesses). Field order:
annual_income, credit_score, monthly_debt_payments, loan_amount,
loan_term_months, employment_years, age, housing_payment. -/

/-- Requested 1100 over 1 month at credit 760: the bisection bracket is
invalid (the payment at the 1000 lower bound already exceeds the 13% target),
so the counteroffer lands at 1000 with PTI ≈ 0.402. -/
def dC3cx : ApplicationRecord := ⟨30000, 760, 0, 1100, 1, 1, 30, 0⟩

/-- Income chosen so the payment at principal 1000 equals the 13% target
exactly; the bisection then provably stays at its lower bound. -/
def dC3w : ApplicationRecord := ⟨1206000/13, 760, 0, 2000, 1, 5, 30, 0⟩

/-- Passes every v2 hard stop with a positive affordability ceiling ≈ 7989
far below the requested 20000. -/
def dC4w : ApplicationRecord := ⟨60000, 700, 2000, 20000, 36, 3, 30, 0⟩

/-- Passes every v2 hard stop but monthly debt 4000 exceeds 45% of monthly
income 5000, so the affordability ceiling is 0. -/
def dC4cx : ApplicationRecord := ⟨60000, 700, 4000, 20000, 36, 3, 30, 0⟩

/-- Fires the v1 manual-review trigger (credit 590 < 600, amount ≥ 15000),
passes every eligibility and policy check, but has DTI ≈ 0.481 > 0.45. -/
def dC6 : ApplicationRecord := ⟨60000, 590, 1000, 15000, 12, 2, 30, 0⟩

/-- Violates many hard stops of both evaluators at once. -/
def dC7 : ApplicationRecord := ⟨-5, 500, 0, -200, 6, -1, 17, 0⟩

/-- Negative requested amount: the estimated payment is negative and grows
with the credit band, so v1's DTI increases with credit score. -/
def dC8a : ApplicationRecord := ⟨30000, 700, 2040, -12000, 12, 2, 30, 0⟩

/-- The `dC8a` with credit 760 instead of 700. -/
def dC8b : ApplicationRecord := ⟨30000, 760, 2040, -12000, 12, 2, 30, 0⟩

/-- An ordinary creditworthy application with nonnegative amount. -/
def dC8w : ApplicationRecord := ⟨60000, 700, 300, 20000, 36, 3, 30, 0⟩

/-- An ordinary application with a nonzero housing payment. -/
def dC9w : ApplicationRecord := ⟨60000, 700, 300, 20000, 36, 3, 30, 5⟩

/-- Small approved v1 loan: 700 over 1 month at credit 760. -/
def dC10 : ApplicationRecord := ⟨60000, 760, 0, 700, 1, 5, 30, 0⟩

/-- The offer `underwrite` produces on `dC10`. -/
def oC10 : Underwriting.Offer := ⟨700, 1, 3/50, 99, 1407/2⟩

section RoundingLemmas

variable {α : Type} [LinearOrderedField α] [FloorRing α]

theorem roundHalfEven_sub_le (x : α) : (roundHalfEven x : α) - x ≤ 1/2 := by
  unfold roundHalfEven
  have h0 : (⌊x⌋ : α) ≤ x := Int.floor_le x
  split_ifs with h1 h2 h3 <;> push_cast <;> linarith

theorem sub_roundHalfEven_le (x : α) : x - (roundHalfEven x : α) ≤ 1/2 := by
  unfold roundHalfEven
  have h0 : x < (⌊x⌋ : α) + 1 := Int.lt_floor_add_one x
  split_ifs with h1 h2 h3 <;> push_cast <;> linarith

theorem roundHalfEven_mono {x y : α} (hxy : x ≤ y) :
    roundHalfEven x ≤ roundHalfEven y := by
  have hf : ⌊x⌋ ≤ ⌊y⌋ := Int.floor_le_floor hxy
  rcases eq_or_lt_of_le hf with he | hl
  · have hyx : x - (⌊x⌋ : α) ≤ y - (⌊y⌋ : α) := by
      rw [← he]; linarith
    unfold roundHalfEven
    rw [← he]
    split_ifs <;> first | omega | linarith
  · unfold roundHalfEven
    split_ifs <;> omega

theorem roundHalfEven_nonneg {x : α} (hx : 0 ≤ x) : 0 ≤ roundHalfEven x := by
  have h := roundHalfEven_mono (x := (0 : α)) (y := x) hx
  have h0 : roundHalfEven (0 : α) = 0 := by
    unfold roundHalfEven
    norm_num
  omega

theorem round_to_le_add (x : α) : round_to x 2 ≤ x + 1/200 := by
  unfold round_to
  have h := roundHalfEven_sub_le (x * 10 ^ 2)
  have hq : ((roundHalfEven (x * 10 ^ 2) : ℤ) : α) / 10 ^ 2 * 100 =
      ((roundHalfEven (x * 10 ^ 2) : ℤ) : α) := by
    norm_num
  norm_num at h hq ⊢
  linarith

theorem le_round_to_add (x : α) : x ≤ round_to x 2 + 1/200 := by
  unfold round_to
  have h := sub_roundHalfEven_le (x * 10 ^ 2)
  have hq : ((roundHalfEven (x * 10 ^ 2) : ℤ) : α) / 10 ^ 2 * 100 =
      ((roundHalfEven (x * 10 ^ 2) : ℤ) : α) := by
    norm_num
  norm_num at h hq ⊢
  try linarith

theorem round_to_mono (d : ℕ) {x y : α} (hxy : x ≤ y) :
    round_to x d ≤ round_to y d := by
  unfold round_to
  have hp : (0:α) < 10 ^ d := by positivity
  have h : roundHalfEven (x * 10 ^ d) ≤ roundHalfEven (y * 10 ^ d) :=
    roundHalfEven_mono (by nlinarith)
  gcongr
  try exact_mod_cast h

end RoundingLemmas

section AmortizationLemmas

theorem one_lt_one_add_pow {r : ℚ} (hr : 0 < r) {t : ℕ} (ht : t ≠ 0) :
    1 < (1 + r) ^ t :=
  one_lt_pow₀ (by linarith) ht

/-- The inverse amortization formula recovers the principal exactly (in exact
rational arithmetic) for any positive principal, nonnegative rate and
positive term. -/
theorem monthly_payment_round_trip {P apr : ℚ} {m : ℤ}
    (hP : 0 < P) (hapr : 0 ≤ apr) (hm : 0 < m) :
    _principal_from_payment (_monthly_payment P apr m) apr m = P := by
  have hmle : ¬ m ≤ 0 := not_le.mpr hm
  have hmq : (0:ℚ) < (m : ℚ) := by exact_mod_cast hm
  rcases eq_or_lt_of_le hapr with h0 | hpos
  · have hr : apr / 12 = 0 := by rw [← h0]; norm_num
    have hpay : _monthly_payment P apr m = P / (m:ℚ) := by
      unfold _monthly_payment
      simp [hmle, hr]
    have hpos2 : 0 < P / (m:ℚ) := div_pos hP hmq
    unfold _principal_from_payment
    rw [hpay]
    simp only [hr, hmle, false_or, if_neg (not_le.mpr hpos2), if_pos rfl]
    field_simp
  · have hr : 0 < apr / 12 := by positivity
    have hrne : apr / 12 ≠ 0 := ne_of_gt hr
    have ht : m.toNat ≠ 0 := by omega
    have hx : 1 < (1 + apr / 12) ^ m.toNat := one_lt_one_add_pow hr ht
    have hden : 0 < (1 + apr / 12) ^ m.toNat - 1 := by linarith
    have hnum : 0 < apr / 12 * (1 + apr / 12) ^ m.toNat := by positivity
    have hpay : _monthly_payment P apr m =
        P * (apr / 12 * (1 + apr / 12) ^ m.toNat) /
          ((1 + apr / 12) ^ m.toNat - 1) := by
      unfold _monthly_payment
      simp [hmle, hrne]
    have hppos : 0 < _monthly_payment P apr m := by
      rw [hpay]; positivity
    unfold _principal_from_payment
    simp only [hmle, false_or, if_neg (not_le.mpr hppos), if_neg hrne,
      if_neg (ne_of_gt hnum)]
    rw [hpay, div_mul_cancel₀ _ (ne_of_gt hden),
      mul_div_cancel_right₀ _ (ne_of_gt hnum)]

theorem monthly_payment_eq_rate {m : ℤ} (P apr : ℚ) (hm : 0 < m)
    (hr : apr / 12 ≠ 0) :
    _monthly_payment P apr m = P * payment_rate (apr / 12) m.toNat := by
  unfold _monthly_payment payment_rate
  simp [not_le.mpr hm, hr, mul_div_assoc]

theorem payment_rate_pos {r : ℚ} (hr : 0 < r) {t : ℕ} (ht : t ≠ 0) :
    0 < payment_rate r t := by
  have hx := one_lt_one_add_pow hr ht
  have hden : 0 < (1 + r) ^ t - 1 := by linarith
  unfold payment_rate
  positivity

theorem payment_rate_le {r : ℚ} (hr : 0 < r) {t : ℕ} (ht : t ≠ 0) :
    payment_rate r t ≤ 1 + r := by
  have hx := one_lt_one_add_pow hr ht
  have hden : 0 < (1 + r) ^ t - 1 := by linarith
  have hpow : (1 + r) ≤ (1 + r) ^ t := le_self_pow₀ (by linarith) ht
  unfold payment_rate
  rw [div_le_iff₀ hden]
  nlinarith

theorem payment_rate_inv_eq_sum {r : ℚ} (hr : 0 < r) (t : ℕ) :
    ((1 + r) ^ t - 1) / (r * (1 + r) ^ t) =
      ∑ k ∈ Finset.range t, (1 / (1 + r)) ^ (k + 1) := by
  induction t with
  | zero => simp
  | succ n ih =>
    rw [Finset.sum_range_succ, ← ih]
    have h1 : (0:ℚ) < 1 + r := by linarith
    have h2 : (1 + r) ^ n ≠ 0 := by positivity
    have h3 : (1 + r) ^ (n + 1) ≠ 0 := by positivity
    have hrne : r ≠ 0 := ne_of_gt hr
    field_simp
    ring

theorem payment_rate_mono {r1 r2 : ℚ} (h1 : 0 < r1) (h12 : r1 ≤ r2) {t : ℕ}
    (ht : t ≠ 0) : payment_rate r1 t ≤ payment_rate r2 t := by
  have h2 : 0 < r2 := lt_of_lt_of_le h1 h12
  have hx1 : (0:ℚ) < 1 + r1 := by linarith
  have hx2 : (0:ℚ) < 1 + r2 := by linarith
  have hsum : ∑ k ∈ Finset.range t, (1/(1+r2)) ^ (k+1) ≤
      ∑ k ∈ Finset.range t, (1/(1+r1)) ^ (k+1) := by
    apply Finset.sum_le_sum
    intro i _
    exact pow_le_pow_left₀ (by positivity)
      (one_div_le_one_div_of_le hx1 (by linarith)) (i+1)
  have hpos2 : 0 < ∑ k ∈ Finset.range t, (1/(1+r2)) ^ (k+1) := by
    apply Finset.sum_pos
    · intro i _; positivity
    · exact Finset.nonempty_range_iff.mpr ht
  have e1 : payment_rate r1 t =
      1 / ∑ k ∈ Finset.range t, (1/(1+r1)) ^ (k+1) := by
    rw [← payment_rate_inv_eq_sum h1, one_div_div]
    rfl
  have e2 : payment_rate r2 t =
      1 / ∑ k ∈ Finset.range t, (1/(1+r2)) ^ (k+1) := by
    rw [← payment_rate_inv_eq_sum h2, one_div_div]
    rfl
  rw [e1, e2]
  exact one_div_le_one_div_of_le hpos2 hsum

theorem monthly_payment_mono_apr {P apr1 apr2 : ℚ} (m : ℤ)
    (hP : 0 ≤ P) (h1 : 0 < apr1) (h12 : apr1 ≤ apr2) :
    _monthly_payment P apr1 m ≤ _monthly_payment P apr2 m := by
  by_cases hm : m ≤ 0
  · unfold _monthly_payment
    simp [hm]
  · push_neg at hm
    have h2 : (0:ℚ) < apr2 := lt_of_lt_of_le h1 h12
    have hr1 : (0:ℚ) < apr1 / 12 := by positivity
    have hr2 : (0:ℚ) < apr2 / 12 := by positivity
    rw [monthly_payment_eq_rate P apr1 hm (ne_of_gt hr1),
      monthly_payment_eq_rate P apr2 hm (ne_of_gt hr2)]
    have ht : m.toNat ≠ 0 := by omega
    exact mul_le_mul_of_nonneg_left
      (payment_rate_mono hr1 (by linarith) ht) hP

end AmortizationLemmas

/-- Claim C2. Amortization round-trip: for every principal in [1000, 100000],
apr in {0, 0.05, 0.10, 0.20} and term in {12, 36, 60, 84} months,
`_principal_from_payment (_monthly_payment P apr m) apr m` equals `P` within
1e-6 relative tolerance, and exactly when apr = 0 (in exact rational
arithmetic the round-trip is exact for all four rates). -/
theorem amortization_round_trip (P apr : ℚ) (m : ℤ)
    (hP1 : 1000 ≤ P) (hP2 : P ≤ 100000)
    (hapr : apr = 0 ∨ apr = 5/100 ∨ apr = 10/100 ∨ apr = 20/100)
    (hm : m = 12 ∨ m = 36 ∨ m = 60 ∨ m = 84) :
    |_principal_from_payment (_monthly_payment P apr m) apr m - P| ≤
      P * (1/1000000) ∧
    (apr = 0 → _principal_from_payment (_monthly_payment P apr m) apr m = P) := by
  have h0 : 0 < P := by linarith
  have ha : 0 ≤ apr := by rcases hapr with h|h|h|h <;> rw [h] <;> norm_num
  have hm0 : 0 < m := by rcases hm with h|h|h|h <;> rw [h] <;> norm_num
  have heq := monthly_payment_round_trip h0 ha hm0
  rw [heq]
  refine ⟨?_, fun _ => rfl⟩
  rw [sub_self, abs_zero]
  positivity

/-- Witness for C2 at P = 1000, apr = 0.05, months = 12. -/
theorem amortization_round_trip_witness :
    |_principal_from_payment (_monthly_payment 1000 (5/100) 12) (5/100) 12 -
        1000| ≤ (1000 : ℚ) * (1/1000000) ∧
    ((5/100 : ℚ) = 0 →
      _principal_from_payment (_monthly_payment 1000 (5/100) 12) (5/100) 12 =
        1000) :=
  amortization_round_trip 1000 (5/100) 12 (by norm_num) (by norm_num)
    (by norm_num) (by norm_num)

/-- Claim C1. Router selection: for every pair of evaluator outputs, with the
flag resolved to `true` the routing result has model `"v2"`, chosen = the v2
result and shadow = the v1 result; with the flag `false`, reversed.  Both
evaluators' outputs appear in the result for either flag value. -/
theorem router_selection {α β : Type} (v1_out : α) (v2_out : β) :
    (Main._decide v1_out v2_out true).model = "v2" ∧
    (Main._decide v1_out v2_out true).chosen = Sum.inr v2_out ∧
    (Main._decide v1_out v2_out true).shadow = Sum.inl v1_out ∧
    (Main._decide v1_out v2_out false).model = "v1" ∧
    (Main._decide v1_out v2_out false).chosen = Sum.inl v1_out ∧
    (Main._decide v1_out v2_out false).shadow = Sum.inr v2_out := by
  refine ⟨rfl, rfl, ?_, rfl, rfl, ?_⟩ <;> simp [Main._decide]


section UnderwritingLemmas

theorem apr_of_v1 (d : ApplicationRecord) :
    Underwriting.apr_of d "v1" =
      Underwriting._apr_from_credit_score_v1 d.credit_score := by
  unfold Underwriting.apr_of
  rw [if_neg (by decide)]

theorem apr_v1_pos (c : ℤ) : 0 < Underwriting._apr_from_credit_score_v1 c := by
  unfold Underwriting._apr_from_credit_score_v1
  split_ifs <;> norm_num

theorem apr_v1_le (c : ℤ) :
    Underwriting._apr_from_credit_score_v1 c ≤ 22/100 := by
  unfold Underwriting._apr_from_credit_score_v1
  split_ifs <;> norm_num

theorem apr_v1_antitone {c c' : ℤ} (h : c ≤ c') :
    Underwriting._apr_from_credit_score_v1 c' ≤
      Underwriting._apr_from_credit_score_v1 c := by
  unfold Underwriting._apr_from_credit_score_v1
  split_ifs <;> first | (exfalso; omega) | norm_num

theorem underwrite_risk_grade (d : ApplicationRecord) (v : String) :
    (Underwriting.underwrite d v).risk_grade =
      Underwriting._risk_grade d.credit_score (Underwriting.dti_of d v) := by
  unfold Underwriting.underwrite
  split_ifs <;> rfl

/-- Inverting `underwrite` on a COUNTEROFFER outcome: no reasons
accumulated, the approved amount differs from the requested amount and the
result carries the assembled offer. -/
theorem underwrite_counteroffer_inv {d : ApplicationRecord} {v : String}
    (h : (Underwriting.underwrite d v).decision = "COUNTEROFFER") :
    Underwriting.reasons_of d v = [] ∧
    Underwriting.approved_amount_of d v ≠ d.loan_amount ∧
    (Underwriting.underwrite d v).offer = some (Underwriting.offer_of d v) := by
  unfold Underwriting.underwrite at h
  by_cases h1 : Underwriting.reasons_of d v = [] ∧
      Underwriting._manual_review_needed d = true
  · rw [if_pos h1] at h
    have h' : ("REFER" : String) = "COUNTEROFFER" := h
    exact absurd h' (by decide)
  · rw [if_neg h1] at h
    by_cases h2 : Underwriting.reasons_of d v ≠ []
    · rw [if_pos h2] at h
      have h' : ("REJECTED" : String) = "COUNTEROFFER" := h
      exact absurd h' (by decide)
    · rw [if_neg h2] at h
      push_neg at h2
      have happ : Underwriting.approved_amount_of d v ≠ d.loan_amount := by
        intro hc
        have h' : (if Underwriting.approved_amount_of d v = d.loan_amount then
            "APPROVED" else "COUNTEROFFER") = ("COUNTEROFFER" : String) := h
        rw [if_pos hc] at h'
        exact absurd h' (by decide)
      refine ⟨h2, happ, ?_⟩
      unfold Underwriting.underwrite
      rw [if_neg h1, if_neg (by simp [h2])]

theorem approved_amount_counter {d : ApplicationRecord} {v : String}
    (h : Underwriting.approved_amount_of d v ≠ d.loan_amount) :
    15/100 < Underwriting.pti_of d v ∧
    Underwriting.approved_amount_of d v =
      _round_money (Underwriting.counterSearch (Underwriting.target_payment d)
        (Underwriting.apr_of d v) d.loan_term_months 30
        (1000, d.loan_amount)).1 := by
  unfold Underwriting.approved_amount_of at h ⊢
  by_cases hp : Underwriting.pti_of d v > 15/100
  · exact ⟨hp, by rw [if_pos hp]⟩
  · rw [if_neg hp] at h
    exact absurd rfl h

/-- Facts recovered from an empty v1 reasons list. -/
theorem reasons_nil_facts {d : ApplicationRecord} {v : String}
    (h : Underwriting.reasons_of d v = []) :
    25000 ≤ d.annual_income ∧ 0 < d.loan_amount ∧ 0 < d.loan_term_months ∧
    Underwriting.dti_of d v ≤ 45/100 := by
  refine ⟨?_, ?_, ?_, ?_⟩
  · by_contra hc
    push_neg at hc
    simp [Underwriting.reasons_of, hc] at h
  · by_contra hc
    push_neg at hc
    simp [Underwriting.reasons_of, hc] at h
  · by_contra hc
    push_neg at hc
    simp [Underwriting.reasons_of, hc] at h
  · by_contra hc
    push_neg at hc
    simp [Underwriting.reasons_of, hc] at h

/-- The bisection keeps the invariant that the payment at the lower end of
the bracket does not exceed the target. -/
theorem counterSearch_fst_le {target apr : ℚ} {term : ℤ} :
    ∀ (n : ℕ) (lo hi : ℚ), _monthly_payment lo apr term ≤ target →
      _monthly_payment
        (Underwriting.counterSearch target apr term n (lo, hi)).1 apr term ≤
        target := by
  intro n
  induction n with
  | zero =>
    intro lo hi h
    exact h
  | succ k ih =>
    intro lo hi h
    rw [Underwriting.counterSearch]
    by_cases hc : _monthly_payment ((lo + hi) / 2) apr term > target
    · rw [if_pos hc]
      exact ih lo ((lo + hi) / 2) h
    · rw [if_neg hc]
      push_neg at hc
      exact ih ((lo + hi) / 2) hi hc

/-- When the payment at the lower end already reaches the target, the
bisection never moves the lower end. -/
theorem counterSearch_stuck {target apr : ℚ} {term : ℤ} (hm : 0 < term)
    (hr : 0 < apr / 12) :
    ∀ (n : ℕ) (lo hi : ℚ), target ≤ _monthly_payment lo apr term → lo < hi →
      (Underwriting.counterSearch target apr term n (lo, hi)).1 = lo := by
  have ht : term.toNat ≠ 0 := by omega
  have hrate := payment_rate_pos hr ht
  intro n
  induction n with
  | zero =>
    intro lo hi _ _
    rfl
  | succ k ih =>
    intro lo hi h hlt
    have hmid : lo < (lo + hi) / 2 := by linarith
    have hpay : target < _monthly_payment ((lo + hi) / 2) apr term := by
      rw [monthly_payment_eq_rate _ apr hm (ne_of_gt hr)] at h ⊢
      calc target ≤ lo * payment_rate (apr / 12) term.toNat := h
        _ < (lo + hi) / 2 * payment_rate (apr / 12) term.toNat := by
            exact mul_lt_mul_of_pos_right hmid hrate
    rw [Underwriting.counterSearch, if_pos hpay]
    exact ih lo ((lo + hi) / 2) h hmid

end UnderwritingLemmas

/-- Claim C5, counterexample. The 0.5pp offset fails for both readings of
"v2 APR": at credit score 740 the v1 table minus the v2 evaluator's table
(`model_v2._apr_from_credit_score`) is 0.015, and at credit score 600 the
v1 table minus even the underwriting-internal v2 table
(`_apr_from_credit_score_v2`) is 0.010. -/
theorem apr_band_offset_cx :
    Underwriting._apr_from_credit_score_v1 740 -
      ModelV2._apr_from_credit_score 740 ≠ 5/1000 ∧
    Underwriting._apr_from_credit_score_v1 600 -
      Underwriting._apr_from_credit_score_v2 600 ≠ 5/1000 := by
  constructor <;>
    norm_num [Underwriting._apr_from_credit_score_v1,
      Underwriting._apr_from_credit_score_v2, ModelV2._apr_from_credit_score]

/-- Claim C5, amended. The v1 APR table is the five-band step function
≥760→6.0%, ≥700→8.0%, ≥660→11.0%, ≥620→15.0%, else 22.0%; the
underwriting-internal v2 table is 0.5 percentage points lower in the three
bands at or above 660 and 1.0 percentage point lower in the two bands
below 660 (the `model_v2.py` evaluator prices from a separate seven-band
grid that is not a uniform offset of v1's). -/
theorem apr_band_offset_amended (c : ℤ) :
    Underwriting._apr_from_credit_score_v1 c -
      Underwriting._apr_from_credit_score_v2 c =
        (if 660 ≤ c then 5/1000 else 10/1000) := by
  unfold Underwriting._apr_from_credit_score_v1
    Underwriting._apr_from_credit_score_v2
  split_ifs <;> first | (exfalso; omega) | norm_num

/-- Claim C10. Whenever `underwrite` returns an offer (APPROVED or
COUNTEROFFER), its origination fee is computed from the *requested* loan
amount as clamp(loan_amount × 0.02, 99, 499) rounded to 2 decimals — never
from the possibly reduced approved amount. -/
theorem origination_fee_from_requested (d : ApplicationRecord) (v : String)
    (o : Underwriting.Offer) (h : (Underwriting.underwrite d v).offer = some o) :
    o.origination_fee =
      _round_money (max 99 (min (d.loan_amount * (2/100)) 499)) := by
  unfold Underwriting.underwrite at h
  by_cases h1 : Underwriting.reasons_of d v = [] ∧
      Underwriting._manual_review_needed d = true
  · rw [if_pos h1] at h
    simp at h
  · rw [if_neg h1] at h
    by_cases h2 : Underwriting.reasons_of d v ≠ []
    · rw [if_pos h2] at h
      simp at h
    · rw [if_neg h2] at h
      have ho : o = Underwriting.offer_of d v := by
        simpa using h.symm
      rw [ho]
      rfl

/-- C10 witness input evaluation: `dC10` is approved at the requested 700
and carries the offer `oC10`. -/
theorem underwrite_dC10_offer :
    (Underwriting.underwrite dC10 "v1").offer = some oC10 := by
  norm_num [Underwriting.underwrite, Underwriting.reasons_of,
    Underwriting.max_amt_of, Underwriting._max_loan_amount,
    Underwriting.dti_of, Underwriting.total_monthly_obligations,
    Underwriting.monthly_income, Underwriting.est_payment, apr_of_v1,
    Underwriting._apr_from_credit_score_v1, _monthly_payment,
    Underwriting._manual_review_needed, Underwriting.offer_of,
    Underwriting.approved_amount_of, Underwriting.pti_of,
    Underwriting.orig_fee_of, _round_money, round_to, roundHalfEven,
    Underwriting.Offer.mk.injEq, dC10, oC10,
    show ((1:ℤ)).toNat = 1 from rfl]

/-- Witness for C10: at `dC10` the offer hypothesis holds and the fee is the
clamped 2% of the requested amount. -/
theorem origination_fee_from_requested_witness :
    oC10.origination_fee =
      _round_money (max 99 (min (dC10.loan_amount * (2/100)) 499)) :=
  origination_fee_from_requested dC10 "v1" oC10 underwrite_dC10_offer

/-- Claim C6, counterexample. `dC6` fires the manual-review trigger, passes
every eligibility and policy check, has DTI > 0.45 — and `underwrite`
returns REJECTED, not REFER: the DTI reason accumulates *before* the
manual-review gate is consulted, so the short-circuit does not bypass
DTI-based rejection. -/
theorem manual_review_dti_cx :
    Underwriting._manual_review_needed dC6 = true ∧
    18 ≤ dC6.age ∧ 0 ≤ dC6.employment_years ∧ 0 < dC6.annual_income ∧
    0 < dC6.loan_amount ∧ 0 < dC6.loan_term_months ∧
    300 ≤ dC6.credit_score ∧ dC6.credit_score ≤ 850 ∧
    1 ≤ dC6.employment_years ∧ 580 ≤ dC6.credit_score ∧
    25000 ≤ dC6.annual_income ∧ dC6.loan_amount ≤ Underwriting.max_amt_of dC6 ∧
    45/100 < Underwriting.dti_of dC6 "v1" ∧
    (Underwriting.underwrite dC6 "v1").decision ≠ "REFER" := by
  refine ⟨?_, ?_, ?_, ?_, ?_, ?_, ?_, ?_, ?_, ?_, ?_, ?_, ?_, ?_⟩
  · norm_num [Underwriting._manual_review_needed, dC6]
  · norm_num [dC6]
  · norm_num [dC6]
  · norm_num [dC6]
  · norm_num [dC6]
  · norm_num [dC6]
  · norm_num [dC6]
  · norm_num [dC6]
  · norm_num [dC6]
  · norm_num [dC6]
  · norm_num [dC6]
  · norm_num [Underwriting.max_amt_of, Underwriting._max_loan_amount, dC6]
  · norm_num [Underwriting.dti_of, Underwriting.total_monthly_obligations,
      Underwriting.monthly_income, Underwriting.est_payment, apr_of_v1,
      Underwriting._apr_from_credit_score_v1, _monthly_payment, dC6,
      show ((12:ℤ)).toNat = 12 from rfl]
  · have hd : (Underwriting.underwrite dC6 "v1").decision = "REJECTED" := by
      norm_num [Underwriting.underwrite, Underwriting.reasons_of,
        Underwriting.max_amt_of, Underwriting._max_loan_amount,
        Underwriting.dti_of, Underwriting.total_monthly_obligations,
        Underwriting.monthly_income, Underwriting.est_payment, apr_of_v1,
        Underwriting._apr_from_credit_score_v1, _monthly_payment, dC6,
        show ((12:ℤ)).toNat = 12 from rfl]
    rw [hd]
    decide

/-- Claim C6, amended. The v1 manual-review short-circuit does *not* bypass
DTI-based rejection: for every application that satisfies the manual-review
trigger, passes all eligibility and policy checks, and has DTI > 0.45,
`underwrite` returns REJECTED (the DTI reason is appended before the
manual-review gate, which requires an empty reasons list). -/
theorem manual_review_dti_amended (d : ApplicationRecord)
    (hmr : Underwriting._manual_review_needed d = true)
    (h1 : 18 ≤ d.age) (h2 : 0 ≤ d.employment_years)
    (h3 : 0 < d.annual_income) (h4 : 0 < d.loan_amount)
    (h5 : 0 < d.loan_term_months) (h6 : 300 ≤ d.credit_score)
    (h7 : d.credit_score ≤ 850) (h8 : 1 ≤ d.employment_years)
    (h9 : 580 ≤ d.credit_score) (h10 : 25000 ≤ d.annual_income)
    (h11 : d.loan_amount ≤ Underwriting.max_amt_of d)
    (hdti : 45/100 < Underwriting.dti_of d "v1") :
    (Underwriting.underwrite d "v1").decision = "REJECTED" := by
  have hne : Underwriting.reasons_of d "v1" ≠ [] := by
    simp [Underwriting.reasons_of, hdti]
  unfold Underwriting.underwrite
  rw [if_neg (fun hc => hne hc.1), if_pos hne]

/-- Witness for C6 (amended) at the concrete record `dC6`. -/
theorem manual_review_dti_amended_witness :
    (Underwriting.underwrite dC6 "v1").decision = "REJECTED" :=
  manual_review_dti_amended dC6
    (by norm_num [Underwriting._manual_review_needed, dC6])
    (by norm_num [dC6]) (by norm_num [dC6]) (by norm_num [dC6])
    (by norm_num [dC6]) (by norm_num [dC6]) (by norm_num [dC6])
    (by norm_num [dC6]) (by norm_num [dC6]) (by norm_num [dC6])
    (by norm_num [dC6])
    (by norm_num [Underwriting.max_amt_of, Underwriting._max_loan_amount, dC6])
    (by norm_num [Underwriting.dti_of, Underwriting.total_monthly_obligations,
      Underwriting.monthly_income, Underwriting.est_payment, apr_of_v1,
      Underwriting._apr_from_credit_score_v1, _monthly_payment, dC6,
      show ((12:ℤ)).toNat = 12 from rfl])

/-- Claim C3, amended. For every application on which v1 `underwrite` returns
COUNTEROFFER *and* the bisection bracket is valid at its lower end (the
payment on a 1000 principal does not already exceed the 13% target), the
offer's payment-to-income ratio is at most 0.13 + 0.001 and the approved
amount is strictly below the requested amount.  (Without the bracket
hypothesis the bound fails: see the counterexample.) -/
theorem counteroffer_pti_bound_amended (d : ApplicationRecord)
    (hco : (Underwriting.underwrite d "v1").decision = "COUNTEROFFER")
    (hbr : _monthly_payment 1000 (Underwriting.apr_of d "v1")
      d.loan_term_months ≤ Underwriting.target_payment d) :
    (Underwriting.underwrite d "v1").offer =
      some (Underwriting.offer_of d "v1") ∧
    (Underwriting.offer_of d "v1").monthly_payment /
      (d.annual_income / 12) ≤ 13/100 + 1/1000 ∧
    (Underwriting.offer_of d "v1").approved_amount < d.loan_amount := by
  obtain ⟨hre, hne, hoff⟩ := underwrite_counteroffer_inv hco
  obtain ⟨hpti, happr⟩ := approved_amount_counter hne
  obtain ⟨hinc, hloan, hterm, -⟩ := reasons_nil_facts hre
  have hapr_pos : 0 < Underwriting.apr_of d "v1" := by
    rw [apr_of_v1]
    exact apr_v1_pos _
  have hapr_le : Underwriting.apr_of d "v1" ≤ 22/100 := by
    rw [apr_of_v1]
    exact apr_v1_le _
  have hr_pos : 0 < Underwriting.apr_of d "v1" / 12 := by positivity
  have hr_le : Underwriting.apr_of d "v1" / 12 ≤ 11/600 := by linarith
  have ht : d.loan_term_months.toNat ≠ 0 := by omega
  set R := payment_rate (Underwriting.apr_of d "v1" / 12)
    d.loan_term_months.toNat with hR_def
  have hrate_pos : 0 < R := payment_rate_pos hr_pos ht
  have hrate_le : R ≤ 1 + Underwriting.apr_of d "v1" / 12 :=
    payment_rate_le hr_pos ht
  set mi := Underwriting.monthly_income d with hmi_def
  have hmi_eq : mi = d.annual_income / 12 := rfl
  have hmi_pos : 0 < mi := by
    rw [hmi_eq]
    linarith
  have hmi_ge : 6250/3 ≤ mi := by
    rw [hmi_eq]
    linarith
  have hpay : ∀ x : ℚ, _monthly_payment x (Underwriting.apr_of d "v1")
      d.loan_term_months = x * R :=
    fun x => monthly_payment_eq_rate x _ hterm (ne_of_gt hr_pos)
  set L := (Underwriting.counterSearch (Underwriting.target_payment d)
    (Underwriting.apr_of d "v1") d.loan_term_months 30
    (1000, d.loan_amount)).1 with hL_def
  have hLpay : _monthly_payment L (Underwriting.apr_of d "v1")
      d.loan_term_months ≤ Underwriting.target_payment d :=
    counterSearch_fst_le 30 1000 d.loan_amount hbr
  have htarget : Underwriting.target_payment d = mi * (13/100) := rfl
  rw [hpay, htarget] at hLpay hbr
  have hloanpay : 15/100 * mi < d.loan_amount * R := by
    have h1 : 15/100 < Underwriting.est_payment d "v1" / mi := hpti
    have h2 : Underwriting.est_payment d "v1" = d.loan_amount * R := by
      show _monthly_payment d.loan_amount (Underwriting.apr_of d "v1")
        d.loan_term_months = d.loan_amount * R
      exact hpay d.loan_amount
    rw [h2] at h1
    exact (lt_div_iff₀ hmi_pos).mp h1
  have happle : Underwriting.approved_amount_of d "v1" ≤ L + 1/200 := by
    rw [happr]
    exact round_to_le_add L
  have hoffamt : (Underwriting.offer_of d "v1").approved_amount =
      Underwriting.approved_amount_of d "v1" := rfl
  have hoffmp : (Underwriting.offer_of d "v1").monthly_payment =
      _round_money (_monthly_payment (Underwriting.approved_amount_of d "v1")
        (Underwriting.apr_of d "v1") d.loan_term_months) := rfl
  have happR : Underwriting.approved_amount_of d "v1" * R ≤ (L + 1/200) * R :=
    mul_le_mul_of_nonneg_right happle (le_of_lt hrate_pos)
  have hmp_le : (Underwriting.offer_of d "v1").monthly_payment ≤
      Underwriting.approved_amount_of d "v1" * R + 1/200 := by
    rw [hoffmp, hpay]
    exact round_to_le_add _
  have hR_small : R ≤ 611/600 := by linarith
  refine ⟨hoff, ?_, ?_⟩
  · rw [show d.annual_income / 12 = mi from hmi_eq.symm,
      div_le_iff₀ hmi_pos]
    nlinarith [hmp_le, happR, hLpay, hR_small, hmi_ge, hrate_pos]
  · rw [hoffamt]
    have h3 : L * 15 * R < d.loan_amount * 13 * R := by nlinarith [hLpay, hloanpay]
    have h4 : L * 15 < d.loan_amount * 13 :=
      lt_of_mul_lt_mul_right h3 (le_of_lt hrate_pos)
    have h5 : 1000 * R < d.loan_amount * R := by nlinarith [hbr, hloanpay]
    have h6 : (1000:ℚ) < d.loan_amount :=
      lt_of_mul_lt_mul_right h5 (le_of_lt hrate_pos)
    linarith [happle, h4, h6]

/-- The bisection on `dC3cx` never leaves its 1000 lower bound: 1000 at 6%
over one month already costs 1005, far above the 325 target. -/
theorem counterSearch_dC3cx :
    (Underwriting.counterSearch (Underwriting.target_payment dC3cx)
      (Underwriting.apr_of dC3cx "v1") dC3cx.loan_term_months 30
      (1000, dC3cx.loan_amount)).1 = 1000 := by
  apply counterSearch_stuck
  · norm_num [dC3cx]
  · norm_num [apr_of_v1, Underwriting._apr_from_credit_score_v1, dC3cx]
  · norm_num [Underwriting.target_payment, Underwriting.monthly_income,
      apr_of_v1, Underwriting._apr_from_credit_score_v1, _monthly_payment,
      dC3cx, show ((1:ℤ)).toNat = 1 from rfl]
  · norm_num [dC3cx]

theorem pti_dC3cx : 15/100 < Underwriting.pti_of dC3cx "v1" := by
  norm_num [Underwriting.pti_of, Underwriting.est_payment,
    Underwriting.monthly_income, apr_of_v1,
    Underwriting._apr_from_credit_score_v1, _monthly_payment, dC3cx,
    show ((1:ℤ)).toNat = 1 from rfl]

theorem approved_dC3cx : Underwriting.approved_amount_of dC3cx "v1" = 1000 := by
  unfold Underwriting.approved_amount_of
  rw [if_pos pti_dC3cx, counterSearch_dC3cx]
  norm_num [_round_money, round_to, roundHalfEven]

theorem reasons_dC3cx : Underwriting.reasons_of dC3cx "v1" = [] := by
  norm_num [Underwriting.reasons_of, Underwriting.max_amt_of,
    Underwriting._max_loan_amount, Underwriting.dti_of,
    Underwriting.total_monthly_obligations, Underwriting.monthly_income,
    Underwriting.est_payment, apr_of_v1,
    Underwriting._apr_from_credit_score_v1, _monthly_payment, dC3cx,
    show ((1:ℤ)).toNat = 1 from rfl]

theorem not_refer_branch_dC3cx :
    ¬(Underwriting.reasons_of dC3cx "v1" = [] ∧
      Underwriting._manual_review_needed dC3cx = true) := by
  intro hc
  have h2 := hc.2
  revert h2
  norm_num [Underwriting._manual_review_needed, dC3cx]

/-- Claim C3, counterexample. On `dC3cx` (1100 requested over one month,
income 30000) `underwrite` produces a COUNTEROFFER whose monthly payment of
1005 is 40.2% of monthly income — far above the claimed 0.13 + 0.001 bound:
the bisection bracket [1000, loan_amount] is invalid because even the 1000
lower bound costs more than 13% of monthly income. -/
theorem counteroffer_pti_bound_cx :
    (Underwriting.underwrite dC3cx "v1").decision = "COUNTEROFFER" ∧
    13/100 + 1/1000 <
      ((Underwriting.underwrite dC3cx "v1").offer.map
        Underwriting.Offer.monthly_payment).getD 0 /
        (dC3cx.annual_income / 12) := by
  have hmp : (Underwriting.offer_of dC3cx "v1").monthly_payment = 1005 := by
    unfold Underwriting.offer_of
    rw [approved_dC3cx]
    norm_num [_monthly_payment, apr_of_v1,
      Underwriting._apr_from_credit_score_v1, _round_money, round_to,
      roundHalfEven, dC3cx, show ((1:ℤ)).toNat = 1 from rfl]
  have hoffer : (Underwriting.underwrite dC3cx "v1").offer =
      some (Underwriting.offer_of dC3cx "v1") := by
    unfold Underwriting.underwrite
    rw [if_neg not_refer_branch_dC3cx, if_neg (by simp [reasons_dC3cx])]
  constructor
  · unfold Underwriting.underwrite
    rw [if_neg not_refer_branch_dC3cx, if_neg (by simp [reasons_dC3cx])]
    show (if Underwriting.approved_amount_of dC3cx "v1" = dC3cx.loan_amount
      then "APPROVED" else "COUNTEROFFER") = "COUNTEROFFER"
    rw [approved_dC3cx]
    norm_num [dC3cx]
  · rw [hoffer]
    simp only [Option.map_some', Option.getD_some]
    rw [hmp]
    norm_num [dC3cx]

/-- On `dC3w` the payment at the 1000 lower bracket end (1005) equals the
13% target exactly, so the bracket hypothesis of the amended C3 holds. -/
theorem bracket_dC3w :
    _monthly_payment 1000 (Underwriting.apr_of dC3w "v1")
      dC3w.loan_term_months ≤ Underwriting.target_payment dC3w := by
  norm_num [Underwriting.target_payment, Underwriting.monthly_income,
    apr_of_v1, Underwriting._apr_from_credit_score_v1, _monthly_payment,
    dC3w, show ((1:ℤ)).toNat = 1 from rfl]

theorem counterSearch_dC3w :
    (Underwriting.counterSearch (Underwriting.target_payment dC3w)
      (Underwriting.apr_of dC3w "v1") dC3w.loan_term_months 30
      (1000, dC3w.loan_amount)).1 = 1000 := by
  apply counterSearch_stuck
  · norm_num [dC3w]
  · norm_num [apr_of_v1, Underwriting._apr_from_credit_score_v1, dC3w]
  · norm_num [Underwriting.target_payment, Underwriting.monthly_income,
      apr_of_v1, Underwriting._apr_from_credit_score_v1, _monthly_payment,
      dC3w, show ((1:ℤ)).toNat = 1 from rfl]
  · norm_num [dC3w]

theorem pti_dC3w : 15/100 < Underwriting.pti_of dC3w "v1" := by
  norm_num [Underwriting.pti_of, Underwriting.est_payment,
    Underwriting.monthly_income, apr_of_v1,
    Underwriting._apr_from_credit_score_v1, _monthly_payment, dC3w,
    show ((1:ℤ)).toNat = 1 from rfl]

theorem approved_dC3w : Underwriting.approved_amount_of dC3w "v1" = 1000 := by
  unfold Underwriting.approved_amount_of
  rw [if_pos pti_dC3w, counterSearch_dC3w]
  norm_num [_round_money, round_to, roundHalfEven]

theorem reasons_dC3w : Underwriting.reasons_of dC3w "v1" = [] := by
  norm_num [Underwriting.reasons_of, Underwriting.max_amt_of,
    Underwriting._max_loan_amount, Underwriting.dti_of,
    Underwriting.total_monthly_obligations, Underwriting.monthly_income,
    Underwriting.est_payment, apr_of_v1,
    Underwriting._apr_from_credit_score_v1, _monthly_payment, dC3w,
    show ((1:ℤ)).toNat = 1 from rfl]

theorem underwrite_dC3w_decision :
    (Underwriting.underwrite dC3w "v1").decision = "COUNTEROFFER" := by
  unfold Underwriting.underwrite
  have hman : ¬(Underwriting.reasons_of dC3w "v1" = [] ∧
      Underwriting._manual_review_needed dC3w = true) := by
    intro hc
    have h2 := hc.2
    revert h2
    norm_num [Underwriting._manual_review_needed, dC3w]
  rw [if_neg hman, if_neg (by simp [reasons_dC3w])]
  show (if Underwriting.approved_amount_of dC3w "v1" = dC3w.loan_amount
    then "APPROVED" else "COUNTEROFFER") = "COUNTEROFFER"
  rw [approved_dC3w]
  norm_num [dC3w]

/-- Witness for C3 (amended) at `dC3w`. -/
theorem counteroffer_pti_bound_amended_witness :
    (Underwriting.underwrite dC3w "v1").offer =
      some (Underwriting.offer_of dC3w "v1") ∧
    (Underwriting.offer_of dC3w "v1").monthly_payment /
      (dC3w.annual_income / 12) ≤ 13/100 + 1/1000 ∧
    (Underwriting.offer_of dC3w "v1").approved_amount < dC3w.loan_amount :=
  counteroffer_pti_bound_amended dC3w underwrite_dC3w_decision bracket_dC3w

theorem flagsToReasons_nil : flagsToReasons [] = [] := rfl

theorem flagsToReasons_cons (b : Bool) (m : String) (l : List (Bool × String)) :
    flagsToReasons ((b, m) :: l) =
      (if b then [m] else []) ++ flagsToReasons l := by
  cases b <;> simp [flagsToReasons]

/-- Claim C7. Hard-stop completeness: in both evaluators every check runs with
no early exit, so the accumulated reasons list is exactly the ordered list
of messages of the violated checks (`flagsToReasons` of the written check
table), and whenever any check fired the returned record carries exactly
that list. -/
theorem hard_stop_completeness (d : ApplicationRecord) (v : String) :
    Underwriting.reasons_of d v = flagsToReasons (Underwriting.checks_v1 d v) ∧
    ModelV2.hard_reasons d = flagsToReasons (ModelV2.checks_v2 d) ∧
    (Underwriting.reasons_of d v ≠ [] →
      (Underwriting.underwrite d v).reasons = Underwriting.reasons_of d v) ∧
    (ModelV2.hard_reasons d ≠ [] →
      (ModelV2.predict d).reasons = ModelV2.hard_reasons d) := by
  refine ⟨?_, ?_, ?_, ?_⟩
  · simp only [Underwriting.checks_v1, Underwriting.reasons_of,
      flagsToReasons_cons, flagsToReasons_nil, decide_eq_true_eq,
      List.append_nil, List.append_assoc]
  · simp only [ModelV2.checks_v2, ModelV2.hard_reasons, flagsToReasons_cons,
      flagsToReasons_nil, decide_eq_true_eq, List.append_nil,
      List.append_assoc]
  · intro h
    unfold Underwriting.underwrite
    rw [if_neg (fun hc => h hc.1), if_pos h]
  · intro h
    unfold ModelV2.predict
    rw [if_pos h]

/-- Witness for C7: `dC7` violates checks in both evaluators, and the
returned reasons lists equal the fired-check message lists. -/
theorem hard_stop_completeness_witness :
    Underwriting.reasons_of dC7 "v1" ≠ [] ∧
    ModelV2.hard_reasons dC7 ≠ [] ∧
    (Underwriting.underwrite dC7 "v1").reasons =
      flagsToReasons (Underwriting.checks_v1 dC7 "v1") ∧
    (ModelV2.predict dC7).reasons = flagsToReasons (ModelV2.checks_v2 dC7) := by
  have h1 : Underwriting.reasons_of dC7 "v1" ≠ [] := by
    intro hc
    norm_num [Underwriting.reasons_of, Underwriting.max_amt_of,
      Underwriting._max_loan_amount, Underwriting.dti_of,
      Underwriting.total_monthly_obligations, Underwriting.monthly_income,
      dC7] at hc
    exact absurd hc (List.cons_ne_nil _ _)
  have h2 : ModelV2.hard_reasons dC7 ≠ [] := by
    intro hc
    norm_num [ModelV2.hard_reasons, ModelV2.MIN_TERM, ModelV2.MAX_TERM,
      ModelV2.MIN_LOAN, ModelV2.MAX_LOAN, dC7] at hc
    exact absurd hc (List.cons_ne_nil _ _)
  obtain ⟨e1, e2, e3, e4⟩ := hard_stop_completeness dC7 "v1"
  exact ⟨h1, h2, by rw [e3 h1, e1], by rw [e4 h2, e2]⟩

/-- Claim C9. The v2 evaluator never reads `housing_payment`: changing only
that field leaves `predict` unchanged, and v2's DTI is (monthly debt +
estimated payment) over monthly income, with no housing term. -/
theorem v2_ignores_housing (d : ApplicationRecord) (h : ℚ) :
    ModelV2.predict { d with housing_payment := h } = ModelV2.predict d ∧
    (0 < ModelV2.monthly_income d →
      (ModelV2.predict d).dti = round_to
        ((d.monthly_debt_payments + ModelV2.est_payment d) /
          ModelV2.monthly_income d) 3) := by
  constructor
  · rfl
  · intro hmi
    have hdti : ModelV2.dti_of d =
        (d.monthly_debt_payments + ModelV2.est_payment d) /
          ModelV2.monthly_income d := by
      unfold ModelV2.dti_of
      rw [if_pos hmi]
    unfold ModelV2.predict
    split_ifs <;>
      · show round_to (ModelV2.dti_of d) 3 = _
        rw [hdti]

/-- Witness for C9 at `dC9w` with housing payment replaced by 250. -/
theorem v2_ignores_housing_witness :
    ModelV2.predict { dC9w with housing_payment := 250 } =
      ModelV2.predict dC9w ∧
    (ModelV2.predict dC9w).dti = round_to
      ((dC9w.monthly_debt_payments + ModelV2.est_payment dC9w) /
        ModelV2.monthly_income dC9w) 3 :=
  ⟨(v2_ignores_housing dC9w 250).1,
    (v2_ignores_housing dC9w 250).2
      (by norm_num [ModelV2.monthly_income, dC9w])⟩

theorem sigmoid_lt_of_nonpos {z : ℝ} (hz : z ≤ 0) :
    ModelV2._sigmoid z < 3/5 := by
  unfold ModelV2._sigmoid
  have h1 : (1:ℝ) ≤ Real.exp (-z) := by
    have h := Real.add_one_le_exp (-z)
    linarith
  have h2 : (0:ℝ) < 1 + Real.exp (-z) := by positivity
  rw [div_lt_iff₀ h2]
  linarith

/-- Claim C4, amended. When every v2 hard stop passes, the affordability
ceiling is *positive*, and the requested amount exceeds it by more than 2%,
`predict` returns MANUAL_REVIEW with the rounded ceiling as the
counteroffer, overriding the probability bands.  (The positivity guard in
the code is essential: see the counterexample with a zero ceiling.) -/
theorem v2_counteroffer_override_amended (d : ApplicationRecord)
    (h0 : ModelV2.hard_reasons d = [])
    (h1 : ModelV2.max_affordable_loan d > 0)
    (h2 : d.loan_amount > ModelV2.max_affordable_loan d * (102/100)) :
    (ModelV2.predict d).decision = "MANUAL_REVIEW" ∧
    (ModelV2.predict d).counteroffer_loan_amount =
      some (round_to (ModelV2.max_affordable_loan d) 0) := by
  have hc : ModelV2.counteroffer d = some (ModelV2.max_affordable_loan d) := by
    unfold ModelV2.counteroffer
    rw [if_pos ⟨h1, h2⟩]
  have hd : ModelV2.decision_of d = "MANUAL_REVIEW" := by
    unfold ModelV2.decision_of
    rw [hc]
    rfl
  unfold ModelV2.predict
  rw [if_neg (by simp [h0])]
  refine ⟨hd, ?_⟩
  show (ModelV2.counteroffer d).map (fun c => round_to c 0) =
    some (round_to (ModelV2.max_affordable_loan d) 0)
  rw [hc]
  rfl

/-- Witness for C4 (amended) at `dC4w`: affordability ceiling ≈ 7989 > 0,
requested 20000 > 1.02 × ceiling. -/
theorem v2_counteroffer_override_amended_witness :
    (ModelV2.predict dC4w).decision = "MANUAL_REVIEW" ∧
    (ModelV2.predict dC4w).counteroffer_loan_amount =
      some (round_to (ModelV2.max_affordable_loan dC4w) 0) :=
  v2_counteroffer_override_amended dC4w
    (by norm_num [ModelV2.hard_reasons, ModelV2.MIN_TERM, ModelV2.MAX_TERM,
      ModelV2.MIN_LOAN, ModelV2.MAX_LOAN, dC4w])
    (by norm_num [ModelV2.max_affordable_loan, ModelV2.max_affordable_payment,
      ModelV2.monthly_income, ModelV2.apr_of, ModelV2._apr_from_credit_score,
      ModelV2.PTI_CAP, ModelV2.DTI_CAP, _principal_from_payment, dC4w,
      show ((36:ℤ)).toNat = 36 from rfl])
    (by norm_num [ModelV2.max_affordable_loan, ModelV2.max_affordable_payment,
      ModelV2.monthly_income, ModelV2.apr_of, ModelV2._apr_from_credit_score,
      ModelV2.PTI_CAP, ModelV2.DTI_CAP, _principal_from_payment, dC4w,
      show ((36:ℤ)).toNat = 36 from rfl])

/-- Claim C4, counterexample. `dC4cx` passes every v2 hard stop and requests
an amount exceeding the (zero) affordability ceiling by more than 2%, yet
`predict` returns REJECTED — the code's counteroffer path additionally
requires the ceiling to be positive, which the claim omits. -/
theorem v2_counteroffer_override_cx :
    ModelV2.hard_reasons dC4cx = [] ∧
    dC4cx.loan_amount > ModelV2.max_affordable_loan dC4cx * (102/100) ∧
    (ModelV2.predict dC4cx).decision = "REJECTED" := by
  have h0 : ModelV2.hard_reasons dC4cx = [] := by
    norm_num [ModelV2.hard_reasons, ModelV2.MIN_TERM, ModelV2.MAX_TERM,
      ModelV2.MIN_LOAN, ModelV2.MAX_LOAN, dC4cx]
  have hmal : ModelV2.max_affordable_loan dC4cx = 0 := by
    norm_num [ModelV2.max_affordable_loan, ModelV2.max_affordable_payment,
      ModelV2.monthly_income, ModelV2.apr_of, ModelV2._apr_from_credit_score,
      ModelV2.PTI_CAP, ModelV2.DTI_CAP, _principal_from_payment, dC4cx,
      show ((36:ℤ)).toNat = 36 from rfl]
  have hco : ModelV2.counteroffer dC4cx = none := by
    unfold ModelV2.counteroffer
    rw [if_neg]
    intro hc
    rw [hmal] at hc
    exact absurd hc.1 (by norm_num)
  have hz : ModelV2.z_of dC4cx ≤ 0 := by
    norm_num [ModelV2.z_of, ModelV2.dti_of, ModelV2.pti_of,
      ModelV2.est_payment, ModelV2.monthly_income, ModelV2.apr_of,
      ModelV2._apr_from_credit_score, _monthly_payment, dC4cx,
      show ((36:ℤ)).toNat = 36 from rfl]
  have hprob : ModelV2.approval_prob dC4cx < 3/5 := by
    apply sigmoid_lt_of_nonpos
    exact_mod_cast hz
  have hd : ModelV2.decision_of dC4cx = "REJECTED" := by
    unfold ModelV2.decision_of
    rw [hco]
    rw [if_neg (by simp)]
    rw [if_neg (fun hcc => absurd hcc.1 (by push_neg; nlinarith [hprob]))]
    rw [if_neg (by push_neg; nlinarith [hprob])]
  refine ⟨h0, ?_, ?_⟩
  · rw [hmal]
    norm_num [dC4cx]
  · unfold ModelV2.predict
    rw [if_neg (by simp [h0])]
    exact hd

theorem apr_v2m_pos (c : ℤ) : 0 < ModelV2._apr_from_credit_score c := by
  unfold ModelV2._apr_from_credit_score
  split_ifs <;> norm_num

theorem apr_v2m_antitone {c c' : ℤ} (h : c ≤ c') :
    ModelV2._apr_from_credit_score c' ≤ ModelV2._apr_from_credit_score c := by
  unfold ModelV2._apr_from_credit_score
  split_ifs <;> first | (exfalso; omega) | norm_num

theorem sigmoid_mono {x y : ℝ} (h : x ≤ y) :
    ModelV2._sigmoid x ≤ ModelV2._sigmoid y := by
  unfold ModelV2._sigmoid
  have e1 : Real.exp (-y) ≤ Real.exp (-x) := Real.exp_le_exp.mpr (by linarith)
  have p2 : (0:ℝ) < 1 + Real.exp (-y) := by positivity
  exact one_div_le_one_div_of_le p2 (by linarith)

theorem sigmoid_nonneg (x : ℝ) : 0 ≤ ModelV2._sigmoid x := by
  unfold ModelV2._sigmoid
  positivity

theorem round_to_nonneg {α : Type} [LinearOrderedField α] [FloorRing α]
    {x : α} (d : ℕ) (h : 0 ≤ x) : 0 ≤ round_to x d := by
  unfold round_to
  have h1 : 0 ≤ roundHalfEven (x * 10 ^ d) :=
    roundHalfEven_nonneg (by positivity)
  have h2 : (0:α) ≤ ((roundHalfEven (x * 10 ^ d) : ℤ) : α) := by
    exact_mod_cast h1
  positivity

theorem gradeRank_riskv2_le_four (p : ℝ) :
    gradeRank (ModelV2._risk_grade p) ≤ 4 := by
  unfold ModelV2._risk_grade
  split_ifs <;> decide

theorem gradeRank_riskv1_le_four (c : ℤ) (x : ℚ) :
    gradeRank (Underwriting._risk_grade c x) ≤ 4 := by
  unfold Underwriting._risk_grade
  split_ifs <;> decide

theorem gradeRank_v2m_mono {p q : ℝ} (h : p ≤ q) :
    gradeRank (ModelV2._risk_grade q) ≤ gradeRank (ModelV2._risk_grade p) := by
  by_cases c1 : p ≥ 85/100
  · have d1 : q ≥ 85/100 := by linarith
    unfold ModelV2._risk_grade
    rw [if_pos c1, if_pos d1]
  · by_cases c2 : p ≥ 75/100
    · have hR : gradeRank (ModelV2._risk_grade p) = 1 := by
        unfold ModelV2._risk_grade
        rw [if_neg c1, if_pos c2]
        decide
      have hL : gradeRank (ModelV2._risk_grade q) ≤ 1 := by
        unfold ModelV2._risk_grade
        split_ifs <;> first | decide | (exfalso; linarith)
      rw [hR]
      exact hL
    · by_cases c3 : p ≥ 65/100
      · have hR : gradeRank (ModelV2._risk_grade p) = 2 := by
          unfold ModelV2._risk_grade
          rw [if_neg c1, if_neg c2, if_pos c3]
          decide
        have hL : gradeRank (ModelV2._risk_grade q) ≤ 2 := by
          unfold ModelV2._risk_grade
          split_ifs <;> first | decide | (exfalso; linarith)
        rw [hR]
        exact hL
      · by_cases c4 : p ≥ 55/100
        · have hR : gradeRank (ModelV2._risk_grade p) = 3 := by
            unfold ModelV2._risk_grade
            rw [if_neg c1, if_neg c2, if_neg c3, if_pos c4]
            decide
          have hL : gradeRank (ModelV2._risk_grade q) ≤ 3 := by
            unfold ModelV2._risk_grade
            split_ifs <;> first | decide | (exfalso; linarith)
          rw [hR]
          exact hL
        · have hR : gradeRank (ModelV2._risk_grade p) = 4 := by
            unfold ModelV2._risk_grade
            rw [if_neg c1, if_neg c2, if_neg c3, if_neg c4]
            decide
          rw [hR]
          exact gradeRank_riskv2_le_four q

theorem gradeRank_v1_mono {c c' : ℤ} {x y : ℚ} (hc : c ≤ c') (hd : y ≤ x) :
    gradeRank (Underwriting._risk_grade c' y) ≤
      gradeRank (Underwriting._risk_grade c x) := by
  by_cases p1 : c ≥ 760 ∧ x ≤ 35/100
  · have q1 : c' ≥ 760 ∧ y ≤ 35/100 := ⟨by omega, by linarith [p1.2]⟩
    unfold Underwriting._risk_grade
    rw [if_pos p1, if_pos q1]
  · by_cases p2 : c ≥ 700 ∧ x ≤ 40/100
    · have q2 : c' ≥ 700 ∧ y ≤ 40/100 := ⟨by omega, by linarith [p2.2]⟩
      have hR : gradeRank (Underwriting._risk_grade c x) = 1 := by
        unfold Underwriting._risk_grade
        rw [if_neg p1, if_pos p2]
        decide
      have hL : gradeRank (Underwriting._risk_grade c' y) ≤ 1 := by
        unfold Underwriting._risk_grade
        split_ifs <;> first | decide | tauto
      rw [hR]
      exact hL
    · by_cases p3 : c ≥ 660 ∧ x ≤ 43/100
      · have q3 : c' ≥ 660 ∧ y ≤ 43/100 := ⟨by omega, by linarith [p3.2]⟩
        have hR : gradeRank (Underwriting._risk_grade c x) = 2 := by
          unfold Underwriting._risk_grade
          rw [if_neg p1, if_neg p2, if_pos p3]
          decide
        have hL : gradeRank (Underwriting._risk_grade c' y) ≤ 2 := by
          unfold Underwriting._risk_grade
          split_ifs <;> first | decide | tauto
        rw [hR]
        exact hL
      · by_cases p4 : c ≥ 620 ∧ x ≤ 45/100
        · have q4 : c' ≥ 620 ∧ y ≤ 45/100 := ⟨by omega, by linarith [p4.2]⟩
          have hR : gradeRank (Underwriting._risk_grade c x) = 3 := by
            unfold Underwriting._risk_grade
            rw [if_neg p1, if_neg p2, if_neg p3, if_pos p4]
            decide
          have hL : gradeRank (Underwriting._risk_grade c' y) ≤ 3 := by
            unfold Underwriting._risk_grade
            split_ifs <;> first | decide | tauto
          rw [hR]
          exact hL
        · have hR : gradeRank (Underwriting._risk_grade c x) = 4 := by
            unfold Underwriting._risk_grade
            rw [if_neg p1, if_neg p2, if_neg p3, if_neg p4]
            decide
          rw [hR]
          exact gradeRank_riskv1_le_four c' y

theorem est_payment_v2_mono {d : ApplicationRecord} {c' : ℤ}
    (hcc : d.credit_score ≤ c') (hloan : 0 ≤ d.loan_amount) :
    ModelV2.est_payment { d with credit_score := c' } ≤
      ModelV2.est_payment d := by
  show _monthly_payment d.loan_amount (ModelV2._apr_from_credit_score c')
      d.loan_term_months ≤
    _monthly_payment d.loan_amount
      (ModelV2._apr_from_credit_score d.credit_score) d.loan_term_months
  exact monthly_payment_mono_apr d.loan_term_months hloan (apr_v2m_pos c')
    (apr_v2m_antitone hcc)

theorem dti_v2_mono {d : ApplicationRecord} {c' : ℤ}
    (hcc : d.credit_score ≤ c') (hloan : 0 ≤ d.loan_amount) :
    ModelV2.dti_of { d with credit_score := c' } ≤ ModelV2.dti_of d := by
  have hmi : ModelV2.monthly_income { d with credit_score := c' } =
      ModelV2.monthly_income d := rfl
  unfold ModelV2.dti_of
  rw [hmi]
  by_cases hm : ModelV2.monthly_income d > 0
  · rw [if_pos hm, if_pos hm]
    have he := est_payment_v2_mono hcc hloan
    have hdebt : ({ d with credit_score := c' } :
        ApplicationRecord).monthly_debt_payments = d.monthly_debt_payments :=
      rfl
    rw [hdebt]
    exact (div_le_div_right hm).mpr (by linarith)
  · rw [if_neg hm, if_neg hm]

theorem pti_v2_mono {d : ApplicationRecord} {c' : ℤ}
    (hcc : d.credit_score ≤ c') (hloan : 0 ≤ d.loan_amount) :
    ModelV2.pti_of { d with credit_score := c' } ≤ ModelV2.pti_of d := by
  have hmi : ModelV2.monthly_income { d with credit_score := c' } =
      ModelV2.monthly_income d := rfl
  unfold ModelV2.pti_of
  rw [hmi]
  by_cases hm : ModelV2.monthly_income d > 0
  · rw [if_pos hm, if_pos hm]
    exact (div_le_div_right hm).mpr (est_payment_v2_mono hcc hloan)
  · rw [if_neg hm, if_neg hm]

/-- The scorecard term `z` never decreases when only the credit score
increases (nonnegative requested amount). -/
theorem z_of_mono {d : ApplicationRecord} {c' : ℤ}
    (hcc : d.credit_score ≤ c') (hloan : 0 ≤ d.loan_amount) :
    ModelV2.z_of d ≤ ModelV2.z_of { d with credit_score := c' } := by
  have h1 := dti_v2_mono hcc hloan
  have h2 := pti_v2_mono hcc hloan
  have h3 : (d.credit_score : ℚ) ≤ (c' : ℚ) := by exact_mod_cast hcc
  unfold ModelV2.z_of
  dsimp only
  linarith

/-- Passing all v2 hard stops is preserved when the credit score rises. -/
theorem hard_reasons_credit_mono {d : ApplicationRecord} {c' : ℤ}
    (hcc : d.credit_score ≤ c') (h : ModelV2.hard_reasons d = []) :
    ModelV2.hard_reasons { d with credit_score := c' } = [] := by
  have h560 : ¬(d.credit_score < 560) := by
    intro hlt
    simp [ModelV2.hard_reasons, hlt] at h
  unfold ModelV2.hard_reasons at h ⊢
  dsimp only at h ⊢
  simp only [List.append_eq_nil] at h ⊢
  obtain ⟨⟨⟨⟨h1, h2⟩, h3⟩, h4⟩, h5⟩ := h
  refine ⟨⟨⟨⟨h1, h2⟩, ?_⟩, h4⟩, h5⟩
  rw [if_neg (by omega)]

theorem predict_pass_prob {d : ApplicationRecord}
    (h : ModelV2.hard_reasons d = []) :
    (ModelV2.predict d).approval_probability =
      round_to (ModelV2.approval_prob d) 3 := by
  unfold ModelV2.predict
  rw [if_neg (by simp [h])]

theorem predict_pass_grade {d : ApplicationRecord}
    (h : ModelV2.hard_reasons d = []) :
    (ModelV2.predict d).risk_grade =
      ModelV2._risk_grade (ModelV2.approval_prob d) := by
  unfold ModelV2.predict
  rw [if_neg (by simp [h])]

theorem predict_reject_prob {d : ApplicationRecord}
    (h : ¬ ModelV2.hard_reasons d = []) :
    (ModelV2.predict d).approval_probability = 0 := by
  unfold ModelV2.predict
  rw [if_pos h]

theorem predict_reject_grade {d : ApplicationRecord}
    (h : ¬ ModelV2.hard_reasons d = []) :
    (ModelV2.predict d).risk_grade = "E" := by
  unfold ModelV2.predict
  rw [if_pos h]

theorem dti_v1_mono {d : ApplicationRecord} {c' : ℤ}
    (hcc : d.credit_score ≤ c') (hloan : 0 ≤ d.loan_amount) :
    Underwriting.dti_of { d with credit_score := c' } "v1" ≤
      Underwriting.dti_of d "v1" := by
  have hmi : Underwriting.monthly_income { d with credit_score := c' } =
      Underwriting.monthly_income d := rfl
  have he : Underwriting.est_payment { d with credit_score := c' } "v1" ≤
      Underwriting.est_payment d "v1" := by
    unfold Underwriting.est_payment
    rw [apr_of_v1, apr_of_v1]
    dsimp only
    exact monthly_payment_mono_apr d.loan_term_months hloan (apr_v1_pos c')
      (apr_v1_antitone hcc)
  unfold Underwriting.dti_of
  rw [hmi]
  by_cases hm : 0 < Underwriting.monthly_income d
  · rw [if_pos hm, if_pos hm]
    unfold Underwriting.total_monthly_obligations
    dsimp only
    exact (div_le_div_right hm).mpr (by linarith [he])
  · rw [if_neg hm, if_neg hm]

/-- Claim C8, amended. Monotonicity in credit score holds for applications
with nonnegative requested amount: raising only the credit score never
raises either priced APR, never lowers the v2 approval probability, and
never worsens the v2 or v1 risk grade.  (For negative requested amounts
the estimated payment is negative and v1's DTI rises with the credit band,
so the v1 grade can worsen: see the counterexample.) -/
theorem credit_monotonicity_amended (d : ApplicationRecord) (c' : ℤ)
    (hcc : d.credit_score < c') (hloan : 0 ≤ d.loan_amount) :
    Underwriting._apr_from_credit_score_v1 c' ≤
      Underwriting._apr_from_credit_score_v1 d.credit_score ∧
    ModelV2._apr_from_credit_score c' ≤
      ModelV2._apr_from_credit_score d.credit_score ∧
    (ModelV2.predict d).approval_probability ≤
      (ModelV2.predict { d with credit_score := c' }).approval_probability ∧
    gradeRank (ModelV2.predict { d with credit_score := c' }).risk_grade ≤
      gradeRank (ModelV2.predict d).risk_grade ∧
    gradeRank
        (Underwriting.underwrite { d with credit_score := c' } "v1").risk_grade ≤
      gradeRank (Underwriting.underwrite d "v1").risk_grade := by
  have hle := le_of_lt hcc
  refine ⟨apr_v1_antitone hle, apr_v2m_antitone hle, ?_, ?_, ?_⟩
  · by_cases h1 : ModelV2.hard_reasons d = []
    · have h2 := hard_reasons_credit_mono hle h1
      rw [predict_pass_prob h1, predict_pass_prob h2]
      apply round_to_mono
      unfold ModelV2.approval_prob
      apply sigmoid_mono
      exact_mod_cast z_of_mono hle hloan
    · rw [predict_reject_prob h1]
      by_cases h2 : ModelV2.hard_reasons { d with credit_score := c' } = []
      · rw [predict_pass_prob h2]
        exact round_to_nonneg 3 (sigmoid_nonneg _)
      · rw [predict_reject_prob h2]
  · by_cases h1 : ModelV2.hard_reasons d = []
    · have h2 := hard_reasons_credit_mono hle h1
      rw [predict_pass_grade h1, predict_pass_grade h2]
      apply gradeRank_v2m_mono
      unfold ModelV2.approval_prob
      apply sigmoid_mono
      exact_mod_cast z_of_mono hle hloan
    · rw [predict_reject_grade h1]
      rw [show gradeRank "E" = 4 from by decide]
      by_cases h2 : ModelV2.hard_reasons { d with credit_score := c' } = []
      · rw [predict_pass_grade h2]
        exact gradeRank_riskv2_le_four _
      · rw [predict_reject_grade h2]
        decide
  · rw [underwrite_risk_grade, underwrite_risk_grade]
    have hcr : ({ d with credit_score := c' } :
        ApplicationRecord).credit_score = c' := rfl
    rw [hcr]
    exact gradeRank_v1_mono hle (dti_v1_mono hle hloan)

/-- Claim C8, counterexample. `dC8b` differs from `dC8a` only by a higher
credit score (760 vs 700), yet its v1 risk grade is strictly worse ("C" vs
"B"): the requested amount is negative, so the (negative) estimated payment
shrinks in magnitude in the better APR band and DTI crosses the 0.40 grade
boundary. -/
theorem credit_monotonicity_cx :
    dC8b = { dC8a with credit_score := 760 } ∧
    dC8a.credit_score < dC8b.credit_score ∧
    gradeRank (Underwriting.underwrite dC8a "v1").risk_grade <
      gradeRank (Underwriting.underwrite dC8b "v1").risk_grade := by
  have ha : (Underwriting.underwrite dC8a "v1").risk_grade = "B" := by
    rw [underwrite_risk_grade]
    norm_num [Underwriting._risk_grade, Underwriting.dti_of,
      Underwriting.total_monthly_obligations, Underwriting.monthly_income,
      Underwriting.est_payment, apr_of_v1,
      Underwriting._apr_from_credit_score_v1, _monthly_payment, dC8a,
      show ((12:ℤ)).toNat = 12 from rfl]
  have hb : (Underwriting.underwrite dC8b "v1").risk_grade = "C" := by
    rw [underwrite_risk_grade]
    norm_num [Underwriting._risk_grade, Underwriting.dti_of,
      Underwriting.total_monthly_obligations, Underwriting.monthly_income,
      Underwriting.est_payment, apr_of_v1,
      Underwriting._apr_from_credit_score_v1, _monthly_payment, dC8b,
      show ((12:ℤ)).toNat = 12 from rfl]
  refine ⟨rfl, by norm_num [dC8a, dC8b], ?_⟩
  rw [ha, hb]
  decide

/-- Witness for C8 (amended) at `dC8w` with the credit score raised to 760. -/
theorem credit_monotonicity_amended_witness :
    Underwriting._apr_from_credit_score_v1 760 ≤
      Underwriting._apr_from_credit_score_v1 dC8w.credit_score ∧
    ModelV2._apr_from_credit_score 760 ≤
      ModelV2._apr_from_credit_score dC8w.credit_score ∧
    (ModelV2.predict dC8w).approval_probability ≤
      (ModelV2.predict { dC8w with credit_score := 760 }).approval_probability ∧
    gradeRank (ModelV2.predict { dC8w with credit_score := 760 }).risk_grade ≤
      gradeRank (ModelV2.predict dC8w).risk_grade ∧
    gradeRank
        (Underwriting.underwrite { dC8w with credit_score := 760 }
          "v1").risk_grade ≤
      gradeRank (Underwriting.underwrite dC8w "v1").risk_grade :=
  credit_monotonicity_amended dC8w 760 (by norm_num [dC8w])
    (by norm_num [dC8w])
